import Mathlib

/-!
Verification of the session and recovery core of the keiba-prediction-app
frontend. The definitions below are shallow embeddings of:

* the auth store (frontend/src/stores/useAuthStore.ts),
* the axios client interceptor (frontend/src/lib/api/client.ts),
* the error handler singleton (frontend/src/utils/errorHandler.ts),
* the console error monitor (frontend/src/utils/errorMonitor.ts),
* the window load handler (frontend/src/main.tsx).

Time is epoch milliseconds, modeled as Int (Date.now values are integral).
-/

namespace Keiba

/-- A token response from the backend (lib/api/types.ts): access_token,
refresh_token and expires_in in seconds. -/
structure Token where
  access_token : String
  refresh_token : String
  expires_in : Int
deriving Repr, DecidableEq

/-- The user record cached in the store; only its presence or absence matters
for the claims, so it is kept minimal. -/
structure User where
  id : Nat
  email : String
deriving Repr, DecidableEq

/-- The persisted slice of the zustand auth store: accessToken, refreshToken,
tokenExpiresAt and user, each nullable. -/
structure AuthState where
  accessToken : Option String
  refreshToken : Option String
  tokenExpiresAt : Option Int
  user : Option User
deriving Repr, DecidableEq

/-- Function calculateExpiresAt of useAuthStore.ts: Date.now() plus
expiresIn times 1000. -/
def calculateExpiresAt (now expiresIn : Int) : Int :=
  now + expiresIn * 1000

/-- Action setTokens of useAuthStore.ts: stores the three token fields,
computing tokenExpiresAt; the cached user is left unchanged. -/
def setTokens (now : Int) (token : Token) (s : AuthState) : AuthState :=
  { s with
    accessToken := some token.access_token
    refreshToken := some token.refresh_token
    tokenExpiresAt := some (calculateExpiresAt now token.expires_in) }

/-- Action clearTokens of useAuthStore.ts: nulls all four fields. -/
def clearTokens (_s : AuthState) : AuthState :=
  { accessToken := none, refreshToken := none, tokenExpiresAt := none, user := none }

/-- Predicate isTokenExpired of useAuthStore.ts: true when no expiry is
stored, otherwise Date.now() is at least tokenExpiresAt minus five minutes. -/
def isTokenExpired (now : Int) (s : AuthState) : Bool :=
  match s.tokenExpiresAt with
  | none => true
  | some t => decide (now ≥ t - 5 * 60 * 1000)

/-- Predicate isAuthenticated of useAuthStore.ts. -/
def isAuthenticated (now : Int) (s : AuthState) : Bool :=
  s.accessToken.isSome && s.refreshToken.isSome && !(isTokenExpired now s)

/-- The backend response to one authApi.refreshToken call. -/
abbrev BackendRefresh := Except String Token

/-- The HTTP outcome of one POST of /api/auth/refresh, as axios sees it: a
2xx response carrying a token, a rejected response with an HTTP status, or a
network failure with no response object at all. -/
inductive RefreshResponse
  | ok (tok : Token)
  | http (status : Nat)
  | net (e : String)
deriving Repr

/-- The rejection a refreshAccessToken invocation can surface to its
caller. -/
inductive RefreshErr
  | noToken
  | http (status : Nat)
  | net (e : String)
deriving Repr, DecidableEq

/-- The auth store together with the number of backend refresh calls issued
so far; the backend answers the n-th issued call with backend n. -/
structure FlowState where
  store : AuthState
  calls : Nat
deriving Repr

/-- Action refreshAccessToken of useAuthStore.ts together with the response
interceptor of client.ts that its own refresh request passes through. With no
stored refresh token the invocation throws at once. Otherwise
authApi.refreshToken posts /api/auth/refresh through apiClient: a 2xx stores
the new token via setTokens. On a 401 the interceptor of that very request
finds the retry mark unset and tokenRefresher configured, so it awaits
tokenRefresher() — refreshAccessToken itself, recursively, each level posting
on a fresh request config; when the inner refresh resolves, the marked
request is resent once (one more backend call) and a failing resend is
propagated unchanged; when the inner refresh rejects, the interceptor catch
clears the tokens via tokenSetter null and propagates the rejection. A
non-401 failure is propagated directly. The catch of refreshAccessToken then
runs clearTokens and rethrows. The Nat argument bounds the recursion depth:
a first component of none means the mutual recursion did not finish within
that depth. -/
def refreshFlow (now : Int) (backend : Nat → RefreshResponse) :
    Nat → FlowState → Option (Except RefreshErr Unit) × FlowState
  | 0, fs => (none, fs)
  | fuel + 1, fs =>
    match fs.store.refreshToken with
    | none => (some (.error .noToken), fs)
    | some _ =>
      let resp := backend fs.calls
      let fs1 : FlowState := { fs with calls := fs.calls + 1 }
      match resp with
      | .ok tok => (some (.ok ()), { fs1 with store := setTokens now tok fs1.store })
      | .net e => (some (.error (.net e)), { fs1 with store := clearTokens fs1.store })
      | .http status =>
        if status = 401 then
          match refreshFlow now backend fuel fs1 with
          | (none, fs2) => (none, fs2)
          | (some (.ok _), fs2) =>
            let resp2 := backend fs2.calls
            let fs3 : FlowState := { fs2 with calls := fs2.calls + 1 }
            match resp2 with
            | .ok tok =>
              (some (.ok ()), { fs3 with store := setTokens now tok fs3.store })
            | .http s2 =>
              (some (.error (.http s2)), { fs3 with store := clearTokens fs3.store })
            | .net e =>
              (some (.error (.net e)), { fs3 with store := clearTokens fs3.store })
          | (some (.error e), fs2) =>
            (some (.error e), { fs2 with store := clearTokens (clearTokens fs2.store) })
        else (some (.error (.http status)), { fs1 with store := clearTokens fs1.store })

/-- Result of a logout invocation. -/
structure LogoutRun where
  outcome : Except String Unit
  state : AuthState
  backendCalls : Nat
deriving Repr

/-- Action logout of useAuthStore.ts: when a refresh token exists it calls
authApi.logoutUser and swallows any failure of that call (the catch block
only logs); in every case it then runs clearTokens. It never throws, so the
parameter telling whether the backend call succeeded does not affect the
result. -/
def logout (_backendOk : Bool) (s : AuthState) : LogoutRun :=
  match s.refreshToken with
  | none => ⟨.ok (), clearTokens s, 0⟩
  | some _ => ⟨.ok (), clearTokens s, 1⟩

/-- Outcome of one logical API call through the axios client. -/
inductive CallOutcome
  | success (status : Nat)
  | httpError (status : Nat)
  | refreshFailed (e : String)
deriving Repr, DecidableEq

/-- Result of one logical call: its outcome, the number of times the request
was sent, and the number of tokenRefresher invocations. -/
structure CallRun where
  outcome : CallOutcome
  sends : Nat
  refreshCalls : Nat
deriving Repr, DecidableEq

/-- Whether axios resolves a response (status 2xx) instead of routing it to
the error interceptor. -/
def is2xx (status : Nat) : Bool :=
  decide (200 ≤ status) && decide (status < 300)

/-- The response interceptor of createApiClient in client.ts, run over one
logical call; server n is the HTTP status of the n-th send of this request.
On a 401 with the retry mark unset, the interceptor sets the mark, awaits
tokenRefresher (refreshAccessToken), reattaches the token and resends the
request once; the response to the resend reaches the interceptor again with
the mark set and is propagated unchanged. When the refresh itself fails, the
refresh error is propagated and the request is not resent. Any non-401 error
status is propagated unchanged. -/
def runCall (server : Nat → Nat) (refresh : Except String Unit) : CallRun :=
  let s0 := server 0
  if is2xx s0 then ⟨.success s0, 1, 0⟩
  else if s0 = 401 then
    match refresh with
    | .ok _ =>
      let s1 := server 1
      if is2xx s1 then ⟨.success s1, 2, 1⟩
      else ⟨.httpError s1, 2, 1⟩
    | .error e => ⟨.refreshFailed e, 1, 1⟩
  else ⟨.httpError s0, 1, 0⟩

/-- An entry of the error log (interface ErrorInfo of errorHandler.ts); only
the message, source and timestamp are relevant to the claims. -/
structure ErrorInfo where
  message : String
  source : String
  timestamp : Int
deriving Repr, DecidableEq

/-- In-memory state of the ErrorHandler singleton of errorHandler.ts. -/
structure ErrorHandlerState where
  errorLog : List ErrorInfo
  reloadCount : Nat
  lastReloadTime : Int
deriving Repr, DecidableEq

/-- Field maxLogSize of ErrorHandler. -/
def maxLogSize : Nat := 100

/-- Field maxReloadAttempts of ErrorHandler. -/
def maxReloadAttempts : Nat := 3

/-- Field reloadCooldown of ErrorHandler, in milliseconds. -/
def reloadCooldown : Int := 5000

/-- A freshly constructed ErrorHandler instance, as built at module load of a
new process instance. -/
def freshErrorHandler : ErrorHandlerState :=
  { errorLog := [], reloadCount := 0, lastReloadTime := 0 }

/-- The list update inside ErrorHandler.logError: push the new entry, then
shift the oldest one away when the length exceeds maxLogSize. -/
def logPush (log : List ErrorInfo) (e : ErrorInfo) : List ErrorInfo :=
  let l := log ++ [e]
  if maxLogSize < l.length then l.drop 1 else l

/-- Method ErrorHandler.logError: appends the entry to the bounded log. The
best-effort forwarding to the server does not touch the handler state. -/
def logError (h : ErrorHandlerState) (e : ErrorInfo) : ErrorHandlerState :=
  { h with errorLog := logPush h.errorLog e }

/-- Folding logError over a sequence of entries. -/
def logErrors (h : ErrorHandlerState) (es : List ErrorInfo) : ErrorHandlerState :=
  es.foldl logError h

/-- The two sessionStorage keys holding the recovery budget. The stored
strings round-trip through toString and parseInt, so they are modeled
directly as numbers. -/
structure RecoveryStorage where
  error_recovery_attempt : Option Nat
  error_recovery_time : Option Int
deriving Repr, DecidableEq

/-- Session storage with neither recovery key present. -/
def emptyStorage : RecoveryStorage := ⟨none, none⟩

/-- Method ErrorHandler.canRecover: the attempt cap is not reached and the
cooldown has elapsed. -/
def canRecover (now : Int) (h : ErrorHandlerState) : Bool :=
  decide (h.reloadCount < maxReloadAttempts) &&
    decide (now - h.lastReloadTime ≥ reloadCooldown)

/-- Result of one ErrorHandler.recover call: whether the page reload was
performed, plus the updated handler state and session storage. -/
structure RecoverRun where
  restarted : Bool
  handler : ErrorHandlerState
  storage : RecoveryStorage
deriving Repr, DecidableEq

/-- Method ErrorHandler.recover: declines while inside the cooldown, declines
at the attempt cap, and otherwise increments reloadCount, records
lastReloadTime, persists both values to sessionStorage and reloads the
page. -/
def recover (now : Int) (h : ErrorHandlerState) (st : RecoveryStorage) : RecoverRun :=
  if now - h.lastReloadTime < reloadCooldown then ⟨false, h, st⟩
  else if maxReloadAttempts ≤ h.reloadCount then ⟨false, h, st⟩
  else
    ⟨true,
     { h with reloadCount := h.reloadCount + 1, lastReloadTime := now },
     ⟨some (h.reloadCount + 1), some now⟩⟩

/-- Method ErrorHandler.resetReloadCount: zeroes the in-memory budget and
removes both sessionStorage keys. -/
def resetReloadCount (h : ErrorHandlerState) (_st : RecoveryStorage) :
    ErrorHandlerState × RecoveryStorage :=
  ({ h with reloadCount := 0, lastReloadTime := 0 }, emptyStorage)

/-- Result of the handleUnhandledRejection helper of errorHandler.ts. -/
structure RejectionRun where
  scheduledRecovery : Bool
  handler : ErrorHandlerState
deriving Repr, DecidableEq

/-- Helper handleUnhandledRejection of errorHandler.ts, registered on the
window unhandledrejection event in main.tsx: it logs the rejected reason and,
whenever canRecover() currently holds, schedules errorHandler.recover() to
run 1000 milliseconds later. The check is per event; no error count and no
sliding window is consulted on this path. -/
def handleUnhandledRejection (now : Int) (e : ErrorInfo) (h : ErrorHandlerState) :
    RejectionRun :=
  let h1 := logError h e
  ⟨canRecover now h1, h1⟩

/-- Sliding-window state of the ErrorMonitor singleton of errorMonitor.ts. -/
structure ErrorMonitorState where
  errorCount : Nat
  errorTimestamps : List Int
deriving Repr, DecidableEq

/-- Field errorThreshold of ErrorMonitor. -/
def errorThreshold : Nat := 5

/-- Field errorWindow of ErrorMonitor, in milliseconds. -/
def errorWindow : Int := 10000

/-- The monitor state right after start() or after attemptRecovery(). -/
def freshMonitor : ErrorMonitorState := ⟨0, []⟩

/-- Method ErrorMonitor.shouldAttemptRecovery: requires errorCount to reach
the threshold, errorHandler.canRecover() to hold, and at least threshold many
recorded timestamps to lie inside the sliding window. -/
def shouldAttemptRecovery (now : Int) (m : ErrorMonitorState) (h : ErrorHandlerState) :
    Bool :=
  if m.errorCount < errorThreshold then false
  else if !(canRecover now h) then false
  else
    decide (errorThreshold ≤
      (m.errorTimestamps.filter (fun t => decide (now - t < errorWindow))).length)

/-- Result of one ErrorMonitor.attemptRecovery call. -/
structure RecoveryAttemptRun where
  monitor : ErrorMonitorState
  handler : ErrorHandlerState
  storage : RecoveryStorage
  restarted : Bool
deriving Repr, DecidableEq

/-- Method ErrorMonitor.attemptRecovery: zeroes errorCount and
errorTimestamps first, then calls errorHandler.recover(); the reset is
performed whether or not recover() declines the reload. -/
def attemptRecovery (now : Int) (_m : ErrorMonitorState) (h : ErrorHandlerState)
    (st : RecoveryStorage) : RecoveryAttemptRun :=
  let r := recover now h st
  ⟨freshMonitor, r.handler, r.storage, r.restarted⟩

/-- Result of running recordError over one or more captured errors; restarts
counts the page reloads actually performed. -/
structure RecordRun where
  monitor : ErrorMonitorState
  handler : ErrorHandlerState
  storage : RecoveryStorage
  restarts : Nat
deriving Repr, DecidableEq

/-- Method ErrorMonitor.recordError: pushes the current timestamp, bumps
errorCount, logs through errorHandler.logError, and then runs
attemptRecovery when shouldAttemptRecovery holds. -/
def recordError (now : Int) (e : ErrorInfo) (m : ErrorMonitorState)
    (h : ErrorHandlerState) (st : RecoveryStorage) : RecordRun :=
  let m1 : ErrorMonitorState :=
    { errorCount := m.errorCount + 1, errorTimestamps := m.errorTimestamps ++ [now] }
  let h1 := logError h e
  if shouldAttemptRecovery now m1 h1 then
    let r := attemptRecovery now m1 h1 st
    ⟨r.monitor, r.handler, r.storage, if r.restarted then 1 else 0⟩
  else ⟨m1, h1, st, 0⟩

/-- Runs recordError over a timestamped sequence of captured critical errors,
accumulating the number of reloads performed. -/
def recordErrors (events : List (Int × ErrorInfo)) (m : ErrorMonitorState)
    (h : ErrorHandlerState) (st : RecoveryStorage) (restarts : Nat) : RecordRun :=
  match events with
  | [] => ⟨m, h, st, restarts⟩
  | (t, e) :: rest =>
    let r := recordError t e m h st
    recordErrors rest r.monitor r.handler r.storage (restarts + r.restarts)

/-- The window load handler of main.tsx: it reads the two persisted recovery
keys; when both exist and the recorded reload happened less than 5000
milliseconds ago, the reload counts as a successful recovery and, when the
persisted attempt count is below 3, resetReloadCount is called; both keys are
then removed. The handler never writes the persisted attempt count back into
the ErrorHandler instance. -/
def onLoad (now : Int) (st : RecoveryStorage) (h : ErrorHandlerState) :
    ErrorHandlerState × RecoveryStorage :=
  match st.error_recovery_attempt, st.error_recovery_time with
  | some attemptCount, some time =>
    let timeDiff := now - time
    let hst :=
      if timeDiff < 5000 then
        if attemptCount < 3 then resetReloadCount h st else (h, st)
      else (h, st)
    (hst.1, emptyStorage)
  | _, _ => (h, st)

/-- State of a new process instance after its load event: the ErrorHandler
singleton is constructed fresh by the module, then the load handler runs over
whatever the previous instance persisted. -/
def processStart (now : Int) (st : RecoveryStorage) :
    ErrorHandlerState × RecoveryStorage :=
  onLoad now st freshErrorHandler

/-- One event of an interleaving of concurrent refreshAccessToken
invocations: a caller starts (runs get(), checks refreshToken and, when it is
present, issues its own authApi.refreshToken call), or the backend response
for a caller arrives and that invocation finishes. -/
inductive RefreshEvent
  | start (caller : Nat)
  | complete (caller : Nat) (response : BackendRefresh)
deriving Repr

/-- State of the interleaved system: the store, the callers whose backend
call is outstanding, the number of backend refresh calls issued so far, and
the outcome each finished caller observed. -/
structure RefreshSystem where
  store : AuthState
  pending : List Nat
  backendCalls : Nat
  finished : List (Nat × Except String Unit)
deriving Repr

/-- The system before any caller has started: no refresh is in flight. -/
def refreshInit (s : AuthState) : RefreshSystem := ⟨s, [], 0, []⟩

/-- One step of the interleaving, following the body of refreshAccessToken: a
starting caller reads the current store and either throws at once (no refresh
token) or issues a backend call — there is no shared in-flight handle it
could join. A completing caller applies the success branch (setTokens) or the
failure branch (clearTokens and rethrow) to the store. -/
def refreshStep (now : Int) (sys : RefreshSystem) (ev : RefreshEvent) : RefreshSystem :=
  match ev with
  | .start c =>
    match sys.store.refreshToken with
    | none =>
      { sys with
        finished := sys.finished ++ [(c, .error "リフレッシュトークンが存在しません")] }
    | some _ =>
      { sys with pending := sys.pending ++ [c], backendCalls := sys.backendCalls + 1 }
  | .complete c resp =>
    if sys.pending.contains c then
      match resp with
      | .ok tok =>
        { store := setTokens now tok sys.store, pending := sys.pending.erase c,
          backendCalls := sys.backendCalls, finished := sys.finished ++ [(c, .ok ())] }
      | .error e =>
        { store := clearTokens sys.store, pending := sys.pending.erase c,
          backendCalls := sys.backendCalls, finished := sys.finished ++ [(c, .error e)] }
    else sys

/-- Runs a schedule of interleaved refresh events from an initial store. -/
def refreshRun (now : Int) (s : AuthState) (evs : List RefreshEvent) : RefreshSystem :=
  evs.foldl (refreshStep now) (refreshInit s)

/-- A concrete authenticated store used by the concrete counterexamples. -/
def demoAuthState : AuthState :=
  { accessToken := some "a", refreshToken := some "r",
    tokenExpiresAt := some 1000000, user := none }

/-- A concrete token response used by the concrete counterexamples. -/
def demoToken : Token := ⟨"a2", "r2", 3600⟩

/-- A concrete critical error used by the concrete counterexamples. -/
def demoError : ErrorInfo :=
  ⟨"TypeError: x is not a function", "unhandledRejection", 10000⟩

/-!  Theorems. -/

/-- C6. Expiry skew: for a credential stored with expires_in = E at setTime,
isTokenExpired now holds exactly when now is at least setTime + E * 1000
minus the fixed five-minute skew; in particular it is true at the skew
boundary and false one millisecond earlier. -/
theorem C6_expiry_skew (setTime now : Int) (tok : Token) (s : AuthState) :
    (isTokenExpired now (setTokens setTime tok s) = true
      ↔ now ≥ setTime + tok.expires_in * 1000 - 5 * 60 * 1000)
    ∧ isTokenExpired (setTime + tok.expires_in * 1000 - 5 * 60 * 1000)
        (setTokens setTime tok s) = true
    ∧ isTokenExpired (setTime + tok.expires_in * 1000 - 5 * 60 * 1000 - 1)
        (setTokens setTime tok s) = false := by
  refine ⟨?_, ?_, ?_⟩ <;>
    simp [isTokenExpired, setTokens, calculateExpiresAt]

/-- C4. Retry-once: through the response interceptor a call is sent at most
twice and the token refresher is invoked at most once; when the first send
returns 401, the refresh succeeds and the resend returns 401 again, the call
is not resent a second time and the second 401 propagates as-is. -/
theorem C4_retry_once (server : Nat → Nat) (refresh : Except String Unit) :
    (runCall server refresh).sends ≤ 2
    ∧ (runCall server refresh).refreshCalls ≤ 1
    ∧ (server 0 = 401 → server 1 = 401 → refresh = .ok () →
        runCall server refresh = ⟨.httpError 401, 2, 1⟩) := by
  refine ⟨?_, ?_, ?_⟩
  · cases refresh <;> simp only [runCall] <;> split_ifs <;> simp
  · cases refresh <;> simp only [runCall] <;> split_ifs <;> simp
  · intro h0 h1 hr
    subst hr
    simp [runCall, h0, h1, is2xx]

/-- C4 witness: a backend answering 401 on both sends with a successful
refresh yields exactly two sends, one refresh, and the second 401. -/
theorem C4_retry_once_witness :
    (runCall (fun _ => 401) (.ok ())).sends ≤ 2
    ∧ runCall (fun _ => 401) (.ok ()) = ⟨.httpError 401, 2, 1⟩ :=
  ⟨(C4_retry_once (fun _ => 401) (.ok ())).1,
   (C4_retry_once (fun _ => 401) (.ok ())).2.2 rfl rfl rfl⟩

/-- C9. Logout: every logout call ends with all four credential fields null
and succeeds, whether or not the backend revocation call failed; a logout
from the already-cleared state also succeeds, leaves the state cleared, and
issues no backend call. -/
theorem C9_logout_idempotent (s : AuthState) (backendOk : Bool) :
    (logout backendOk s).state.accessToken = none
    ∧ (logout backendOk s).state.refreshToken = none
    ∧ (logout backendOk s).state.tokenExpiresAt = none
    ∧ (logout backendOk s).state.user = none
    ∧ (logout backendOk s).outcome = .ok ()
    ∧ (logout backendOk (clearTokens s)).state = clearTokens s
    ∧ (logout backendOk (clearTokens s)).outcome = .ok ()
    ∧ (logout backendOk (clearTokens s)).backendCalls = 0 := by
  cases hs : s.refreshToken <;> simp [logout, clearTokens, hs]

/-- The reload decision of recover agrees with canRecover. -/
theorem recover_restarted (now : Int) (h : ErrorHandlerState) (st : RecoveryStorage) :
    (recover now h st).restarted = canRecover now h := by
  unfold recover canRecover
  split_ifs with h1 h2 <;>
    simp [maxReloadAttempts, reloadCooldown] at * <;> omega

/-- When canRecover holds, recover performs the reload, bumps the budget and
persists it. -/
theorem recover_of_canRecover (now : Int) (h : ErrorHandlerState) (st : RecoveryStorage)
    (hc : canRecover now h = true) :
    recover now h st =
      ⟨true, { h with reloadCount := h.reloadCount + 1, lastReloadTime := now },
       ⟨some (h.reloadCount + 1), some now⟩⟩ := by
  simp [canRecover, maxReloadAttempts, reloadCooldown] at hc
  unfold recover
  split_ifs with h1 h2
  · simp [reloadCooldown] at h1; omega
  · simp [maxReloadAttempts] at h2; omega
  · rfl

/-- When canRecover fails, recover declines and leaves every state alone. -/
theorem recover_of_not_canRecover (now : Int) (h : ErrorHandlerState)
    (st : RecoveryStorage) (hc : canRecover now h = false) :
    recover now h st = ⟨false, h, st⟩ := by
  simp [canRecover, maxReloadAttempts, reloadCooldown] at hc
  unfold recover
  split_ifs with h1 h2
  · rfl
  · rfl
  · simp [reloadCooldown] at h1
    simp [maxReloadAttempts] at h2
    omega

/-- C5. Restart gate: recover reloads exactly when the attempt count is below
maxReloadAttempts and the cooldown has elapsed; a reload increments the
count, records the time and persists both to sessionStorage; a second
eligible burst within one cooldown of a reload is declined; and once the
count reaches the cap every further call is declined. -/
theorem C5_restart_gate (now : Int) (h : ErrorHandlerState) (st : RecoveryStorage) :
    ((recover now h st).restarted = true ↔
      (h.reloadCount < maxReloadAttempts ∧ reloadCooldown ≤ now - h.lastReloadTime))
    ∧ ((recover now h st).restarted = true →
        (recover now h st).handler.reloadCount = h.reloadCount + 1
        ∧ (recover now h st).handler.lastReloadTime = now
        ∧ (recover now h st).storage = ⟨some (h.reloadCount + 1), some now⟩)
    ∧ (∀ now2, (recover now h st).restarted = true → now2 - now < reloadCooldown →
        (recover now2 (recover now h st).handler (recover now h st).storage).restarted
          = false)
    ∧ (maxReloadAttempts ≤ h.reloadCount → (recover now h st).restarted = false) := by
  refine ⟨?_, ?_, ?_, ?_⟩
  · rw [recover_restarted]
    simp [canRecover]
  · intro hres
    rw [recover_restarted] at hres
    rw [recover_of_canRecover now h st hres]
    exact ⟨rfl, rfl, rfl⟩
  · intro now2 hres hcool
    rw [recover_restarted] at hres
    rw [recover_of_canRecover now h st hres]
    rw [recover_restarted]
    simp only [reloadCooldown] at hcool
    simp [canRecover, reloadCooldown]
    intro _
    omega
  · intro hcap
    rw [recover_restarted]
    simp only [maxReloadAttempts] at hcap
    simp [canRecover, maxReloadAttempts]
    intro hlt
    omega

/-- C5 witness: from a fresh handler at time 5000 the reload is performed;
the resulting budget is persisted, and a second burst at time 9999 is
declined. -/
theorem C5_restart_gate_witness :
    ((recover 5000 freshErrorHandler emptyStorage).restarted = true ↔
      (freshErrorHandler.reloadCount < maxReloadAttempts ∧
        reloadCooldown ≤ 5000 - freshErrorHandler.lastReloadTime))
    ∧ (recover 5000 freshErrorHandler emptyStorage).storage = ⟨some 1, some 5000⟩
    ∧ (recover 9999 (recover 5000 freshErrorHandler emptyStorage).handler
        (recover 5000 freshErrorHandler emptyStorage).storage).restarted = false := by
  refine ⟨(C5_restart_gate 5000 freshErrorHandler emptyStorage).1,
    ((C5_restart_gate 5000 freshErrorHandler emptyStorage).2.1 (by decide)).2.2,
    (C5_restart_gate 5000 freshErrorHandler emptyStorage).2.2.1 9999 (by decide)
      (by decide)⟩

/-- Against a backend that answers 401 to every refresh post — the
Unauthorized rejection of the refresh token itself — each level of the
mutual recursion between refreshAccessToken and the interceptor issues one
more backend call and re-enters the refresher: the flow finishes within no
depth, and the store is neither cleared nor updated along the way. -/
theorem refreshFlow_all401 (now : Int) (n : Nat) (fs : FlowState)
    (hs : fs.store.refreshToken.isSome = true) :
    (refreshFlow now (fun _ => .http 401) n fs).1 = none
    ∧ (refreshFlow now (fun _ => .http 401) n fs).2.calls = fs.calls + n
    ∧ (refreshFlow now (fun _ => .http 401) n fs).2.store = fs.store := by
  induction n generalizing fs with
  | zero => exact ⟨rfl, rfl, rfl⟩
  | succ k ih =>
    obtain ⟨r, hr⟩ := Option.isSome_iff_exists.mp hs
    have hnext := ih { fs with calls := fs.calls + 1 } (by simpa using hs)
    have hpair : refreshFlow now (fun _ => .http 401) k { fs with calls := fs.calls + 1 }
        = (none, (refreshFlow now (fun _ => .http 401) k
            { fs with calls := fs.calls + 1 }).2) := by
      rw [← hnext.1]
    have hstep : refreshFlow now (fun _ => .http 401) (k + 1) fs
        = (none, (refreshFlow now (fun _ => .http 401) k
            { fs with calls := fs.calls + 1 }).2) := by
      rw [refreshFlow, hr]
      simp only []
      rw [hpair]
      simp
    rw [hstep]
    refine ⟨rfl, ?_, hnext.2.2⟩
    rw [hnext.2.1]
    show fs.calls + 1 + k = fs.calls + (k + 1)
    omega

/-- C8: the code contradicts the claim at its central input. With a stored
refresh token and a backend rejecting every refresh post with 401, the
refresh request re-enters the 401 interceptor of client.ts, which re-invokes
refreshAccessToken on a fresh request config: every extra unit of depth
issues one more backend refresh call, the rejection is never surfaced to the
caller and clearTokens is never reached — at depth 2 the flow has already
issued 2 backend calls, not exactly one. A non-401 rejection of the refresh
(here a network error), by contrast, terminates at once with the behavior
the claim describes: one backend call, every token field cleared before the
failure is surfaced. -/
theorem C8_refresh_recursion (n : Nat) :
    (refreshFlow 0 (fun _ => .http 401) n ⟨demoAuthState, 0⟩).1 = none
    ∧ (refreshFlow 0 (fun _ => .http 401) n ⟨demoAuthState, 0⟩).2.calls = n
    ∧ (refreshFlow 0 (fun _ => .http 401) n ⟨demoAuthState, 0⟩).2.store = demoAuthState
    ∧ (refreshFlow 0 (fun _ => .http 401) 2 ⟨demoAuthState, 0⟩).2.calls ≠ 1
    ∧ refreshFlow 0 (fun _ => .net "ECONNREFUSED") 1 ⟨demoAuthState, 0⟩
        = (some (.error (.net "ECONNREFUSED")), ⟨clearTokens demoAuthState, 1⟩) := by
  have h := refreshFlow_all401 0 n ⟨demoAuthState, 0⟩ rfl
  refine ⟨h.1, ?_, h.2.2, by decide, rfl⟩
  rw [h.2.1]
  show 0 + n = n
  omega

/-- The log update of logError never grows the log past the capacity. -/
theorem logPush_length_le (log : List ErrorInfo) (e : ErrorInfo)
    (hlen : log.length ≤ maxLogSize) : (logPush log e).length ≤ maxLogSize := by
  simp only [logPush]
  split <;> rename_i hc <;>
    simp only [List.length_drop, List.length_append, List.length_singleton] at hc ⊢ <;>
    omega

/-- Folding the log update over a stream from a log within capacity keeps
exactly the suffix of the combined stream that fits the capacity. -/
theorem foldl_logPush (es : List ErrorInfo) (acc : List ErrorInfo)
    (hacc : acc.length ≤ maxLogSize) :
    es.foldl logPush acc = (acc ++ es).drop (acc.length + es.length - maxLogSize) := by
  induction es generalizing acc with
  | nil =>
    simp [Nat.sub_eq_zero_of_le hacc]
  | cons e rest ih =>
    rcases Nat.lt_or_ge acc.length maxLogSize with hlt | hge
    · have h1 : logPush acc e = acc ++ [e] := by
        unfold logPush
        rw [if_neg]
        simp
        omega
      have hidx : (acc ++ [e]).length + rest.length - maxLogSize
          = acc.length + (e :: rest).length - maxLogSize := by
        simp
        omega
      rw [List.foldl_cons, h1, ih (acc ++ [e]) (by simp; omega), hidx,
        List.append_assoc, List.singleton_append]
    · have heq : acc.length = maxLogSize := Nat.le_antisymm hacc hge
      have h1 : logPush acc e = (acc ++ [e]).drop 1 := by
        unfold logPush
        rw [if_pos]
        simp
        omega
      have hlen1 : ((acc ++ [e]).drop 1).length = maxLogSize := by
        simp [heq]
      rw [List.foldl_cons, h1, ih ((acc ++ [e]).drop 1) (Nat.le_of_eq hlen1), hlen1]
      have hsplit : (acc ++ [e]).drop 1 ++ rest = ((acc ++ [e]) ++ rest).drop 1 := by
        cases acc with
        | nil => simp [maxLogSize] at heq
        | cons a acc2 => simp
      rw [hsplit, List.drop_drop, List.append_assoc, List.singleton_append]
      congr 1
      simp [heq]
      omega

/-- Folding logError over a stream only touches the errorLog field, via the
bounded push. -/
theorem logErrors_spec (h : ErrorHandlerState) (es : List ErrorInfo) :
    (logErrors h es).errorLog = es.foldl logPush h.errorLog
    ∧ (logErrors h es).reloadCount = h.reloadCount
    ∧ (logErrors h es).lastReloadTime = h.lastReloadTime := by
  induction es generalizing h with
  | nil => exact ⟨rfl, rfl, rfl⟩
  | cons e rest ih =>
    simpa [logErrors, logError] using ih { h with errorLog := logPush h.errorLog e }

/-- C7. Ring-buffer bound: inserting maxLogSize + K records into a fresh
handler leaves exactly maxLogSize records, namely the most recent ones of the
stream (the first K are evicted); moreover a single logError call never takes
a log that is within capacity past the capacity. -/
theorem C7_ring_buffer (K : Nat) (es : List ErrorInfo) (_hK : 1 ≤ K)
    (hlen : es.length = maxLogSize + K) :
    (logErrors freshErrorHandler es).errorLog = es.drop K
    ∧ (logErrors freshErrorHandler es).errorLog.length = maxLogSize
    ∧ (∀ (h : ErrorHandlerState) (e : ErrorInfo), h.errorLog.length ≤ maxLogSize →
        (logError h e).errorLog.length ≤ maxLogSize) := by
  have hfold := foldl_logPush es [] (by simp)
  have hlog : (logErrors freshErrorHandler es).errorLog = es.drop K := by
    rw [(logErrors_spec freshErrorHandler es).1]
    show es.foldl logPush [] = es.drop K
    rw [hfold]
    simp [hlen]
  refine ⟨hlog, ?_, ?_⟩
  · rw [hlog, List.length_drop, hlen]
    omega
  · intro h e hle
    exact logPush_length_le h.errorLog e hle

/-- A stream of n distinct error records, used by concrete witnesses. -/
def demoStream (n : Nat) : List ErrorInfo :=
  (List.range n).map (fun i => ErrorInfo.mk "e" "s" (Int.ofNat i))

/-- The demo stream has the requested length. -/
theorem demoStream_length (n : Nat) : (demoStream n).length = n := by
  simp [demoStream]

/-- C7 witness: a stream of 101 distinct records leaves the 100 most recent
ones. -/
theorem C7_ring_buffer_witness :
    (1 : Nat) ≤ 1
    ∧ (demoStream (maxLogSize + 1)).length = maxLogSize + 1
    ∧ (logErrors freshErrorHandler (demoStream (maxLogSize + 1))).errorLog
        = (demoStream (maxLogSize + 1)).drop 1 :=
  ⟨Nat.le_refl 1, demoStream_length (maxLogSize + 1),
   (C7_ring_buffer 1 (demoStream (maxLogSize + 1)) (Nat.le_refl 1)
      (demoStream_length (maxLogSize + 1))).1⟩

/-- A start event leaves the store untouched and, while the store holds a
refresh token, issues one more backend call; so a block of starts issues one
backend call per caller. -/
theorem foldl_starts (now : Int) (l : List Nat) (sys : RefreshSystem)
    (hs : sys.store.refreshToken.isSome = true) :
    ((l.map RefreshEvent.start).foldl (refreshStep now) sys).backendCalls
      = sys.backendCalls + l.length
    ∧ ((l.map RefreshEvent.start).foldl (refreshStep now) sys).store = sys.store := by
  induction l generalizing sys with
  | nil => exact ⟨rfl, rfl⟩
  | cons c rest ih =>
    obtain ⟨r, hr⟩ := Option.isSome_iff_exists.mp hs
    have hstep : refreshStep now sys (.start c)
        = { sys with pending := sys.pending ++ [c],
                     backendCalls := sys.backendCalls + 1 } := by
      simp [refreshStep, hr]
    have hnext := ih { sys with pending := sys.pending ++ [c],
                                backendCalls := sys.backendCalls + 1 }
      (by simpa using hs)
    simp only [List.map_cons, List.foldl_cons, hstep]
    refine ⟨?_, hnext.2⟩
    rw [hnext.1]
    simp only [List.length_cons]
    omega

/-- C1 amended: N concurrent refreshAccessToken invocations that each read
the store while it holds a refresh token issue N backend refresh calls, one
per caller; the code keeps no shared in-flight operation that late callers
could join. -/
theorem C1_no_single_flight (now : Int) (s : AuthState)
    (hs : s.refreshToken.isSome = true) (N : Nat) :
    (refreshRun now s ((List.range N).map RefreshEvent.start)).backendCalls = N := by
  have h := (foldl_starts now (List.range N) (refreshInit s) hs).1
  simpa [refreshRun, refreshInit] using h

/-- C1 amended witness: two concurrent starts on the demo store issue two
backend calls. -/
theorem C1_no_single_flight_witness :
    demoAuthState.refreshToken.isSome = true
    ∧ (refreshRun 0 demoAuthState ((List.range 2).map RefreshEvent.start)).backendCalls
        = 2 :=
  ⟨rfl, C1_no_single_flight 0 demoAuthState rfl 2⟩

/-- C1 as stated is false: in the schedule where callers 0 and 1 both start
before either backend response arrives, two backend refresh calls are issued
rather than exactly one, and right after the two starts two refresh
operations are outstanding at the same instant. -/
theorem C1_counterexample :
    (refreshRun 0 demoAuthState
      [.start 0, .start 1, .complete 0 (.ok demoToken),
       .complete 1 (.ok demoToken)]).backendCalls = 2
    ∧ (refreshRun 0 demoAuthState
      [.start 0, .start 1, .complete 0 (.ok demoToken),
       .complete 1 (.ok demoToken)]).backendCalls ≠ 1
    ∧ (refreshRun 0 demoAuthState [.start 0, .start 1]).pending.length = 2 :=
  ⟨rfl, by decide, rfl⟩

/-- Appending one entry to the log never changes the recovery budget fields,
so canRecover is unchanged. -/
theorem canRecover_logError (now : Int) (h : ErrorHandlerState) (e : ErrorInfo) :
    canRecover now (logError h e) = canRecover now h := rfl

/-- Logging a stream of entries never changes the recovery budget fields, so
canRecover is unchanged. -/
theorem canRecover_logErrors (now : Int) (h : ErrorHandlerState) (es : List ErrorInfo) :
    canRecover now (logErrors h es) = canRecover now h := by
  unfold canRecover
  rw [(logErrors_spec h es).2.1, (logErrors_spec h es).2.2]

/-- While the running error count stays below the threshold, recordError
only accumulates: no restart is attempted, the storage is untouched, the
window collects the timestamps and the handler only logs. -/
theorem recordErrors_below_threshold (events : List (Int × ErrorInfo))
    (m : ErrorMonitorState) (h : ErrorHandlerState) (st : RecoveryStorage) (r : Nat)
    (hlt : m.errorCount + events.length < errorThreshold) :
    recordErrors events m h st r =
      ⟨⟨m.errorCount + events.length, m.errorTimestamps ++ events.map Prod.fst⟩,
       logErrors h (events.map Prod.snd), st, r⟩ := by
  induction events generalizing m h st r with
  | nil =>
    simp [recordErrors, logErrors]
  | cons te rest ih =>
    obtain ⟨t, e⟩ := te
    have hcount : m.errorCount + 1 < errorThreshold := by
      simp only [List.length_cons] at hlt
      omega
    have hshould : shouldAttemptRecovery t
        ⟨m.errorCount + 1, m.errorTimestamps ++ [t]⟩ (logError h e) = false := by
      unfold shouldAttemptRecovery
      rw [if_pos]
      exact hcount
    have hrec : recordError t e m h st
        = ⟨⟨m.errorCount + 1, m.errorTimestamps ++ [t]⟩, logError h e, st, 0⟩ := by
      unfold recordError
      rw [if_neg]
      rw [hshould]
      exact Bool.false_ne_true
    have hnext := ih ⟨m.errorCount + 1, m.errorTimestamps ++ [t]⟩ (logError h e) st (r + 0)
      (by
        simp only [List.length_cons] at hlt
        show m.errorCount + 1 + rest.length < errorThreshold
        omega)
    simp only [recordErrors, hrec, hnext]
    simp only [List.map_cons, List.length_cons, List.append_assoc,
      List.singleton_append, logErrors, List.foldl_cons]
    have harith : m.errorCount + 1 + rest.length = m.errorCount + (rest.length + 1) := by
      omega
    rw [harith]
    exact rfl

/-- Running a split stream of recorded errors runs the two halves in
sequence. -/
theorem recordErrors_append (a b : List (Int × ErrorInfo)) (m : ErrorMonitorState)
    (h : ErrorHandlerState) (st : RecoveryStorage) (r : Nat) :
    recordErrors (a ++ b) m h st r =
      recordErrors b (recordErrors a m h st r).monitor (recordErrors a m h st r).handler
        (recordErrors a m h st r).storage (recordErrors a m h st r).restarts := by
  induction a generalizing m h st r with
  | nil => rfl
  | cons x rest ih =>
    obtain ⟨t, e⟩ := x
    simp only [List.cons_append, recordErrors]
    exact ih (recordError t e m h st).monitor (recordError t e m h st).handler
      (recordError t e m h st).storage (r + (recordError t e m h st).restarts)

/-- C2 as stated is false: not every capture path enforces the threshold.
Through handleUnhandledRejection of errorHandler.ts a single captured
critical error (a sequence of length 1, at most 4) already schedules a
recovery, and the recover call it schedules 1000 ms later performs the
restart. -/
theorem C2_counterexample :
    (handleUnhandledRejection 10000 demoError freshErrorHandler).scheduledRecovery = true
    ∧ (recover 11000 (handleUnhandledRejection 10000 demoError freshErrorHandler).handler
        emptyStorage).restarted = true :=
  ⟨rfl, rfl⟩

/-- C2 amended: along the ErrorMonitor recordError path the threshold holds:
any sequence of at most 4 recorded critical errors performs no restart, and a
sequence of 5 recorded critical errors whose timestamps all lie within the
10-second window of the last one, arriving while the handler can recover,
performs exactly one restart. -/
theorem C2_monitor_threshold :
    (∀ (events : List (Int × ErrorInfo)) (h : ErrorHandlerState) (st : RecoveryStorage),
      events.length ≤ 4 →
      (recordErrors events freshMonitor h st 0).restarts = 0)
    ∧ (∀ (t1 t2 t3 t4 t5 : Int) (e1 e2 e3 e4 e5 : ErrorInfo)
        (h : ErrorHandlerState) (st : RecoveryStorage),
      t5 - t1 < errorWindow → t5 - t2 < errorWindow →
      t5 - t3 < errorWindow → t5 - t4 < errorWindow →
      canRecover t5 h = true →
      (recordErrors [(t1, e1), (t2, e2), (t3, e3), (t4, e4), (t5, e5)]
        freshMonitor h st 0).restarts = 1) := by
  constructor
  · intro events h st hlen
    rw [recordErrors_below_threshold events freshMonitor h st 0
      (by simp only [freshMonitor, errorThreshold]; omega)]
  · intro t1 t2 t3 t4 t5 e1 e2 e3 e4 e5 h st hw1 hw2 hw3 hw4 hcr
    have h4 := recordErrors_below_threshold [(t1, e1), (t2, e2), (t3, e3), (t4, e4)]
      freshMonitor h st 0 (by simp [freshMonitor, errorThreshold])
    have happ : ([(t1, e1), (t2, e2), (t3, e3), (t4, e4), (t5, e5)]
        : List (Int × ErrorInfo))
        = [(t1, e1), (t2, e2), (t3, e3), (t4, e4)] ++ [(t5, e5)] := rfl
    rw [happ, recordErrors_append, h4]
    simp only [List.map_cons, List.map_nil, freshMonitor]
    simp only [errorWindow] at hw1 hw2 hw3 hw4
    simp [recordErrors, recordError, attemptRecovery, shouldAttemptRecovery,
      canRecover_logError, canRecover_logErrors, hcr, errorThreshold, errorWindow,
      recover_restarted, hw1, hw2, hw3, hw4]

/-- C2 amended witness: five simultaneous critical errors at time 5000 on a
fresh handler restart once; the empty sequence restarts zero times. -/
theorem C2_monitor_threshold_witness :
    (recordErrors [] freshMonitor freshErrorHandler emptyStorage 0).restarts = 0
    ∧ (recordErrors [(5000, demoError), (5000, demoError), (5000, demoError),
        (5000, demoError), (5000, demoError)]
        freshMonitor freshErrorHandler emptyStorage 0).restarts = 1 :=
  ⟨C2_monitor_threshold.1 [] freshErrorHandler emptyStorage (by decide),
   C2_monitor_threshold.2 5000 5000 5000 5000 5000 demoError demoError demoError
     demoError demoError freshErrorHandler emptyStorage (by decide) (by decide)
     (by decide) (by decide) rfl⟩

/-- C3 as stated is false: with sessionStorage recording attempt count 2 at
time 0, a new process loading at time 10000 (outside the 5-second window)
starts with reloadCount 0, not with the persisted count 2. -/
theorem C3_counterexample :
    (processStart 10000 ⟨some 2, some 0⟩).1.reloadCount = 0
    ∧ (processStart 10000 ⟨some 2, some 0⟩).1.reloadCount ≠ 2 :=
  ⟨rfl, by decide⟩

/-- C3 amended: recover persists the incremented attempt count and the
attempt time to sessionStorage, and a restart within the last 5 seconds with
a persisted count below 3 triggers an explicit reset on load; but the
persisted count is never restored into the new process: after every load the
in-memory budget is zero and, whenever both keys were present, they are
removed. -/
theorem C3_budget_not_restored (now : Int) (h : ErrorHandlerState) (st : RecoveryStorage)
    (hres : (recover now h st).restarted = true) :
    (recover now h st).storage = ⟨some (h.reloadCount + 1), some now⟩
    ∧ (∀ (m : Int) (s : RecoveryStorage),
        (processStart m s).1.reloadCount = 0 ∧ (processStart m s).1.lastReloadTime = 0)
    ∧ (∀ (m : Int) (a : Nat) (t : Int),
        (processStart m ⟨some a, some t⟩).2 = emptyStorage) := by
  refine ⟨?_, ?_, ?_⟩
  · rw [recover_restarted] at hres
    rw [recover_of_canRecover now h st hres]
  · intro m s
    obtain ⟨a, t⟩ := s
    cases a <;> cases t <;>
      simp [processStart, onLoad, freshErrorHandler, resetReloadCount] <;>
      split_ifs <;> simp
  · intro m a t
    simp [processStart, onLoad, freshErrorHandler, resetReloadCount, emptyStorage]

/-- C3 amended witness: a restart at time 5000 from a fresh handler persists
count 1; any later load starts with a zero budget and clears the keys. -/
theorem C3_budget_not_restored_witness :
    (recover 5000 freshErrorHandler emptyStorage).restarted = true
    ∧ (recover 5000 freshErrorHandler emptyStorage).storage = ⟨some 1, some 5000⟩
    ∧ (processStart 10000 ⟨some 1, some 5000⟩).1.reloadCount = 0
    ∧ (processStart 10000 ⟨some 1, some 5000⟩).2 = emptyStorage :=
  ⟨rfl,
   (C3_budget_not_restored 5000 freshErrorHandler emptyStorage rfl).1,
   ((C3_budget_not_restored 5000 freshErrorHandler emptyStorage rfl).2.1
      10000 ⟨some 1, some 5000⟩).1,
   (C3_budget_not_restored 5000 freshErrorHandler emptyStorage rfl).2.2
      10000 1 5000⟩

/-- C10. attemptRecovery zeroes errorCount and errorTimestamps before recover
is consulted, unconditionally — also when recover declines; hence after a
dropped restart attempt the window is empty and any fewer than threshold
further recorded critical errors perform no restart. -/
theorem C10_window_reset (now : Int) (m : ErrorMonitorState) (h : ErrorHandlerState)
    (st : RecoveryStorage) :
    (attemptRecovery now m h st).monitor = freshMonitor
    ∧ ((attemptRecovery now m h st).restarted = false →
        ∀ (events : List (Int × ErrorInfo)), events.length < errorThreshold →
          (recordErrors events (attemptRecovery now m h st).monitor
            (attemptRecovery now m h st).handler
            (attemptRecovery now m h st).storage 0).restarts = 0) := by
  refine ⟨rfl, ?_⟩
  intro _ events hlen
  rw [recordErrors_below_threshold events (attemptRecovery now m h st).monitor
    (attemptRecovery now m h st).handler (attemptRecovery now m h st).storage 0
    (by
      show freshMonitor.errorCount + events.length < errorThreshold
      simpa [freshMonitor] using hlen)]

/-- C10 witness: an attemptRecovery dropped by the cooldown (time 0, fresh
handler) still resets the window, and zero further errors perform no
restart. -/
theorem C10_window_reset_witness :
    (attemptRecovery 0 freshMonitor freshErrorHandler emptyStorage).monitor = freshMonitor
    ∧ (attemptRecovery 0 freshMonitor freshErrorHandler emptyStorage).restarted = false
    ∧ (recordErrors []
        (attemptRecovery 0 freshMonitor freshErrorHandler emptyStorage).monitor
        (attemptRecovery 0 freshMonitor freshErrorHandler emptyStorage).handler
        (attemptRecovery 0 freshMonitor freshErrorHandler emptyStorage).storage
        0).restarts = 0 :=
  ⟨(C10_window_reset 0 freshMonitor freshErrorHandler emptyStorage).1, rfl,
   (C10_window_reset 0 freshMonitor freshErrorHandler emptyStorage).2 rfl []
     (by decide)⟩

end Keiba
